import Mathlib

/-
  Shallow embedding of the Conical Kresling Origami model
  (class KreslingModel and the controller routine updateModelParameter).

  JavaScript numbers are modelled as real numbers; Math.sqrt, Math.sin,
  Math.cos, Math.asin, Math.abs, Math.max and Math.min are modelled by the
  corresponding real functions.  The per-instance stable-state cache
  (this._stableStates, either null or the cached pair) is modelled as an
  Option field, and the mutating method findStableStates is modelled by
  explicit state passing: it returns the pair together with the updated
  instance.
-/

namespace Kresling

noncomputable section

/-- A fold state: the JS object with fields h and phi returned inside
findStableStates. -/
structure FoldState where
  h : ℝ
  phi : ℝ

/-- The fields of a KreslingModel instance: the five geometric parameters,
the stiffness coefficient EA, the derived quantities d, r, R, km, kv set by
the constructor, and the stable-state cache. -/
structure KreslingModel where
  n : ℝ
  a : ℝ
  b : ℝ
  c : ℝ
  beta : ℝ
  d : ℝ
  r : ℝ
  R : ℝ
  EA : ℝ
  km : ℝ
  kv : ℝ
  _stableStates : Option (Option FoldState × Option FoldState)

/-- The constructor body after default resolution: given the six resolved
numbers it computes the derived quantities exactly as the JS constructor does
(d by the law of cosines, r and R as circumradii, km = EA/c, kv = EA/d) and
initializes the cache to null. -/
def mkRaw (n a b c beta EA : ℝ) : KreslingModel :=
  let d := Real.sqrt (b ^ 2 + c ^ 2 - 2 * b * c * Real.cos beta)
  { n := n
    a := a
    b := b
    c := c
    beta := beta
    d := d
    r := a / (2 * Real.sin (Real.pi / n))
    R := b / (2 * Real.sin (Real.pi / n))
    EA := EA
    km := EA / c
    kv := EA / d
    _stableStates := none }

/-- Optional constructor arguments: the JS params object, where each field
may be absent. -/
structure KreslingParams where
  n : Option ℝ
  a : Option ℝ
  b : Option ℝ
  c : Option ℝ
  beta : Option ℝ
  EA : Option ℝ

/-- The JS expression `params.x || dflt`: an absent field gives the default,
and so does a supplied falsy number.  The falsy numbers of JS are 0, -0 and
NaN; over the reals this is exactly the value 0. -/
def jsOrDefault (v : Option ℝ) (dflt : ℝ) : ℝ :=
  match v with
  | none => dflt
  | some x => if x = 0 then dflt else x

/-- The KreslingModel constructor: resolves each parameter against its
documented default (n=6, a=1, b=2, c=3, beta=1.5, EA=1) with the JS `||`
operator and then computes the derived quantities. -/
def KreslingModel.create (p : KreslingParams) : KreslingModel :=
  mkRaw (jsOrDefault p.n 6) (jsOrDefault p.a 1) (jsOrDefault p.b 2)
    (jsOrDefault p.c 3) (jsOrDefault p.beta 1.5) (jsOrDefault p.EA 1)

/-- computeCreaseLength(h, phi): the strained mountain and valley crease
lengths (cTilde, dTilde). -/
def computeCreaseLength (m : KreslingModel) (h phi : ℝ) : ℝ × ℝ :=
  (Real.sqrt (h ^ 2 + m.r ^ 2 + m.R ^ 2 - 2 * m.r * m.R * Real.cos phi),
   Real.sqrt (h ^ 2 + m.r ^ 2 + m.R ^ 2 -
      2 * m.r * m.R * Real.cos (phi + 2 * Real.pi / m.n)))

/-- computeEnergy(h, phi): the elastic energy
n * km * (cTilde - c)^2 / 2 + n * kv * (dTilde - d)^2 / 2, reading the
stored stiffness fields km and kv of the instance. -/
def computeEnergy (m : KreslingModel) (h phi : ℝ) : ℝ :=
  let ct := (computeCreaseLength m h phi).1
  let dt := (computeCreaseLength m h phi).2
  m.n * m.km * (ct - m.c) ^ 2 / 2 + m.n * m.kv * (dt - m.d) ^ 2 / 2

/-- The upper end of the twist-angle search range in
findEquilibriumTwistAngle: Math.min(PI, PI - 2*PI/n). -/
def phiMaxOf (m : KreslingModel) : ℝ :=
  min Real.pi (Real.pi - 2 * Real.pi / m.n)

/-- The i-th grid sample of the twist-angle search:
phi_i = phiMin + i * phiStep with phiMin = 0 and phiStep = phiMax / 100. -/
def gridPhi (m : KreslingModel) (i : ℕ) : ℝ :=
  (i : ℝ) * (phiMaxOf m / 100)

/-- The loop state of the grid search after samples 0..k: the running pair
(minEnergy, minPhi), updated with a strict less-than comparison.  The JS
loop starts from minEnergy = Infinity and minPhi = 0, so the i = 0 sample
always replaces the initial state (every real energy is below Infinity);
this is modelled by taking the i = 0 sample as the base case. -/
def gridLoop (E phiOf : ℕ → ℝ) : ℕ → ℝ × ℝ
  | 0 => (E 0, phiOf 0)
  | k + 1 =>
      let best := gridLoop E phiOf k
      if E (k + 1) < best.1 then (E (k + 1), phiOf (k + 1)) else best

/-- findEquilibriumTwistAngle(h): brute-force grid search over the 101
samples, returning the recorded minPhi. -/
def findEquilibriumTwistAngle (m : KreslingModel) (h : ℝ) : ℝ :=
  (gridLoop (fun i => computeEnergy m h (gridPhi m i)) (gridPhi m) 100).2

/-- The lambda parameter computed inside findStableStates and again inside
calculatePhase: ((b - 2*c*cos(beta)) / a) * sin(pi/n). -/
def lam (m : KreslingModel) : ℝ :=
  ((m.b - 2 * m.c * Real.cos m.beta) / m.a) * Real.sin (Real.pi / m.n)

/-- The cache-miss body of findStableStates: each state is produced under
the guard |lambda| <= 1, otherwise it stays null. -/
def computeStableStates (m : KreslingModel) :
    Option FoldState × Option FoldState :=
  let lambda := lam m
  let state1 : Option FoldState :=
    if |lambda| ≤ 1 then
      let phi1 := Real.arcsin lambda - Real.pi / m.n
      let h1 := Real.sqrt (max 0 (m.c ^ 2 - m.r ^ 2 - m.R ^ 2 +
        2 * m.r * m.R * Real.cos phi1))
      some { h := h1, phi := phi1 }
    else none
  let state2 : Option FoldState :=
    if |lambda| ≤ 1 then
      let phi2 := Real.pi - Real.arcsin lambda - Real.pi / m.n
      let h2 := Real.sqrt (max 0 (m.c ^ 2 - m.r ^ 2 - m.R ^ 2 +
        2 * m.r * m.R * Real.cos phi2))
      some { h := h2, phi := phi2 }
    else none
  (state1, state2)

/-- findStableStates(): returns the cached pair when the cache is non-null,
otherwise computes the pair, stores it in the cache and returns it.  The
method result and the updated instance are returned together. -/
def findStableStates (m : KreslingModel) :
    (Option FoldState × Option FoldState) × KreslingModel :=
  match m._stableStates with
  | some cached => (cached, m)
  | none =>
      let s := computeStableStates m
      (s, { m with _stableStates := some s })

/-- isBistable(): true when both stable states are non-null. -/
def isBistable (m : KreslingModel) : Bool :=
  let s := (findStableStates m).1
  s.1.isSome && s.2.isSome

/-- The flat-fold threshold length computed inside calculatePhase:
cfs = sqrt(r^2 + R^2 + 2*r*R*cos(2*pi/n)). -/
def cfs (m : KreslingModel) : ℝ :=
  Real.sqrt (m.r ^ 2 + m.R ^ 2 + 2 * m.r * m.R * Real.cos (2 * Real.pi / m.n))

/-- calculatePhase(): destructures the stable-state pair, returns
"monostable" when either state is null or |lambda| > 1, then compares c
with cfs and the two stable twist angles with phi0 = pi/2 - pi/n. -/
def calculatePhase (m : KreslingModel) : String :=
  match (findStableStates m).1 with
  | (some state1, some state2) =>
      if 1 < |lam m| then "monostable"
      else
        let phi0 := Real.pi / 2 - Real.pi / m.n
        if cfs m < m.c then "bistable-zero-energy"
        else if state1.phi ≤ phi0 ∧ phi0 ≤ state2.phi then "bistable-zero-energy"
        else "bistable-nonzero-energy"
  | _ => "monostable"

/-- The name of the field assigned by the controller routine
updateModelParameter. -/
inductive ParamName
  | n
  | a
  | b
  | c
  | beta
  | EA

/-- The assignment `this.model[param] = value`. -/
def KreslingModel.setField (m : KreslingModel) : ParamName → ℝ → KreslingModel
  | ParamName.n, v => { m with n := v }
  | ParamName.a, v => { m with a := v }
  | ParamName.b, v => { m with b := v }
  | ParamName.c, v => { m with c := v }
  | ParamName.beta, v => { m with beta := v }
  | ParamName.EA, v => { m with EA := v }

/-- The controller routine updateModelParameter(param, value): assigns the
field, and only when the parameter is one of a, b, c, beta, n recomputes the
derived quantities d, r, R, km, kv and clears the stable-state cache.  For
EA nothing besides the field assignment happens.  The trailing UI refresh of
the source (updateModel: visualizer and chart updates) touches no model
field and is omitted. -/
def updateModelParameter (m : KreslingModel) (p : ParamName) (v : ℝ) :
    KreslingModel :=
  let m1 := m.setField p v
  match p with
  | ParamName.EA => m1
  | _ =>
      let d := Real.sqrt (m1.b ^ 2 + m1.c ^ 2 -
        2 * m1.b * m1.c * Real.cos m1.beta)
      { m1 with
        d := d
        r := m1.a / (2 * Real.sin (Real.pi / m1.n))
        R := m1.b / (2 * Real.sin (Real.pi / m1.n))
        km := m1.EA / m1.c
        kv := m1.EA / d
        _stableStates := none }

/-- Modelled from the spec wording of the EA claim: the energy formula with
the stiffnesses re-derived from the current EA field, namely
n * (EA/c) * (cTilde - c)^2 / 2 + n * (EA/d) * (dTilde - d)^2 / 2.  This is
the value the claim says computeEnergy returns after an EA update; it is
compared against the implementation, which reads the stored km and kv. -/
def energyCurrentEA (m : KreslingModel) (h phi : ℝ) : ℝ :=
  let ct := (computeCreaseLength m h phi).1
  let dt := (computeCreaseLength m h phi).2
  m.n * (m.EA / m.c) * (ct - m.c) ^ 2 / 2 +
    m.n * (m.EA / m.d) * (dt - m.d) ^ 2 / 2

/-- A concrete instance used to evaluate the theorems: n=6, a=2, b=2, c=3,
beta=pi/2, EA=1, for which lambda = ((2 - 0)/2) * sin(pi/6) = 1/2. -/
def mA : KreslingModel := mkRaw 6 2 2 3 (Real.pi / 2) 1

/-- A concrete instance with lambda = ((4 - 0)/1) * sin(pi/6) = 2, outside
the arcsine domain. -/
def mB : KreslingModel := mkRaw 6 1 4 3 (Real.pi / 2) 1

/-- A params object supplying the zero-length side edge c = 0 and leaving
every other parameter absent. -/
def pZero : KreslingParams :=
  { n := none, a := none, b := none, c := some 0, beta := none, EA := none }

/-- A params object with every parameter absent. -/
def pNone : KreslingParams :=
  { n := none, a := none, b := none, c := none, beta := none, EA := none }

/-- Claim C5: for every constructed instance and every h and phi,
computeCreaseLength returns the two law-of-cosines lengths cTilde and
dTilde, and computeEnergy returns
n * km * (cTilde - c)^2 / 2 + n * kv * (dTilde - d)^2 / 2 with km = EA/c
and kv = EA/d. -/
theorem c5_crease_energy_formulas (p : KreslingParams) (h phi : ℝ) :
    computeCreaseLength (KreslingModel.create p) h phi =
      (Real.sqrt (h ^ 2 + (KreslingModel.create p).r ^ 2 +
          (KreslingModel.create p).R ^ 2 -
          2 * (KreslingModel.create p).r * (KreslingModel.create p).R *
            Real.cos phi),
       Real.sqrt (h ^ 2 + (KreslingModel.create p).r ^ 2 +
          (KreslingModel.create p).R ^ 2 -
          2 * (KreslingModel.create p).r * (KreslingModel.create p).R *
            Real.cos (phi + 2 * Real.pi / (KreslingModel.create p).n))) ∧
    computeEnergy (KreslingModel.create p) h phi =
      (KreslingModel.create p).n *
          ((KreslingModel.create p).EA / (KreslingModel.create p).c) *
          ((computeCreaseLength (KreslingModel.create p) h phi).1 -
            (KreslingModel.create p).c) ^ 2 / 2 +
        (KreslingModel.create p).n *
          ((KreslingModel.create p).EA / (KreslingModel.create p).d) *
          ((computeCreaseLength (KreslingModel.create p) h phi).2 -
            (KreslingModel.create p).d) ^ 2 / 2 := by
  exact ⟨rfl, rfl⟩

/-- Claim C6: under the documented parameter constraints (n >= 3, positive
edge lengths, beta strictly between 0 and pi, EA > 0) the energy is
non-negative for all real h and phi. -/
theorem c6_energy_nonneg (n a b c beta EA : ℝ) (hn : 3 ≤ n) (ha : 0 < a)
    (hb : 0 < b) (hc : 0 < c) (hbeta0 : 0 < beta) (hbetapi : beta < Real.pi)
    (hEA : 0 < EA) (h phi : ℝ) :
    0 ≤ computeEnergy (mkRaw n a b c beta EA) h phi := by
  have hn0 : (0 : ℝ) ≤ n := by linarith
  have hkm : (0 : ℝ) ≤ EA / c := div_nonneg hEA.le hc.le
  have hkv : (0 : ℝ) ≤ EA /
      Real.sqrt (b ^ 2 + c ^ 2 - 2 * b * c * Real.cos beta) :=
    div_nonneg hEA.le (Real.sqrt_nonneg _)
  simp only [computeEnergy, mkRaw]
  have t1 : (0 : ℝ) ≤ n * (EA / c) *
      ((computeCreaseLength (mkRaw n a b c beta EA) h phi).1 - c) ^ 2 / 2 :=
    div_nonneg (mul_nonneg (mul_nonneg hn0 hkm) (sq_nonneg _)) (by norm_num)
  have t2 : (0 : ℝ) ≤ n *
      (EA / Real.sqrt (b ^ 2 + c ^ 2 - 2 * b * c * Real.cos beta)) *
      ((computeCreaseLength (mkRaw n a b c beta EA) h phi).2 -
        Real.sqrt (b ^ 2 + c ^ 2 - 2 * b * c * Real.cos beta)) ^ 2 / 2 :=
    div_nonneg (mul_nonneg (mul_nonneg hn0 hkv) (sq_nonneg _)) (by norm_num)
  exact add_nonneg t1 t2

/-- Witness for C6 at the concrete parameters n=6, a=1, b=2, c=3,
beta=pi/2, EA=1 and the fold state (0, 0). -/
theorem c6_energy_nonneg_witness :
    0 ≤ computeEnergy (mkRaw 6 1 2 3 (Real.pi / 2) 1) 0 0 :=
  c6_energy_nonneg 6 1 2 3 (Real.pi / 2) 1 (by norm_num) (by norm_num)
    (by norm_num) (by norm_num) (by positivity)
    (half_lt_self Real.pi_pos) (by norm_num) 0 0

/-- Claim C7 counterexample helper is below; the amended claim: assigning
EA through updateModelParameter changes the EA field only, so km and kv
keep their previous values and every subsequent computeEnergy call returns
exactly what it returned before the update. -/
theorem c7_amended_ea_update_stale (m : KreslingModel) (v h phi : ℝ) :
    computeEnergy (updateModelParameter m ParamName.EA v) h phi =
      computeEnergy m h phi ∧
    (updateModelParameter m ParamName.EA v).km = m.km ∧
    (updateModelParameter m ParamName.EA v).kv = m.kv ∧
    (updateModelParameter m ParamName.EA v).EA = v :=
  ⟨rfl, rfl, rfl, rfl⟩

/-- Claim C3: a second findStableStates call with no intervening parameter
change returns the same pair and leaves the instance unchanged, and
updateModelParameter on any of a, b, c, beta, n clears the cache, so the
next findStableStates call recomputes the pair from the new geometry. -/
theorem c3_cache_correctness (m : KreslingModel) (v : ℝ) :
    ((findStableStates (findStableStates m).2).1 = (findStableStates m).1 ∧
      (findStableStates (findStableStates m).2).2 = (findStableStates m).2) ∧
    ((updateModelParameter m ParamName.a v)._stableStates = none ∧
      (updateModelParameter m ParamName.b v)._stableStates = none ∧
      (updateModelParameter m ParamName.c v)._stableStates = none ∧
      (updateModelParameter m ParamName.beta v)._stableStates = none ∧
      (updateModelParameter m ParamName.n v)._stableStates = none) ∧
    ((findStableStates (updateModelParameter m ParamName.a v)).1 =
        computeStableStates (updateModelParameter m ParamName.a v) ∧
      (findStableStates (updateModelParameter m ParamName.b v)).1 =
        computeStableStates (updateModelParameter m ParamName.b v) ∧
      (findStableStates (updateModelParameter m ParamName.c v)).1 =
        computeStableStates (updateModelParameter m ParamName.c v) ∧
      (findStableStates (updateModelParameter m ParamName.beta v)).1 =
        computeStableStates (updateModelParameter m ParamName.beta v) ∧
      (findStableStates (updateModelParameter m ParamName.n v)).1 =
        computeStableStates (updateModelParameter m ParamName.n v)) := by
  refine ⟨?_, ⟨rfl, rfl, rfl, rfl, rfl⟩, rfl, rfl, rfl, rfl, rfl⟩
  cases hm : m._stableStates with
  | some cached => simp [findStableStates, hm]
  | none => simp [findStableStates, hm]

/-- The grid-search loop keeps the running best (minEnergy, minPhi): after
samples 0..k the state is the pair of some sample index j, the energy at j
is minimal over 0..k, and every sample strictly before j has strictly
larger energy (so the first minimizer wins, by the strict comparison). -/
theorem gridLoop_spec (E phiOf : ℕ → ℝ) (k : ℕ) :
    ∃ j : ℕ, j ≤ k ∧ gridLoop E phiOf k = (E j, phiOf j) ∧
      (∀ i : ℕ, i ≤ k → E j ≤ E i) ∧ (∀ i : ℕ, i < j → E j < E i) := by
  induction k with
  | zero =>
      refine ⟨0, le_refl 0, rfl, ?_, ?_⟩
      · intro i hi
        interval_cases i
        exact le_refl _
      · intro i hi
        omega
  | succ k ih =>
      obtain ⟨j, hjk, heq, hmin, hfirst⟩ := ih
      by_cases hlt : E (k + 1) < (gridLoop E phiOf k).1
      · refine ⟨k + 1, le_refl _, ?_, ?_, ?_⟩
        · simp only [gridLoop, if_pos hlt]
        · intro i hi
          rcases Nat.lt_or_ge i (k + 1) with hik | hik
          · have : E (k + 1) < E j := by rw [heq] at hlt; exact hlt
            exact le_of_lt (lt_of_lt_of_le this (hmin i (Nat.lt_succ_iff.mp hik)))
          · have : i = k + 1 := le_antisymm hi hik
            rw [this]
        · intro i hi
          have : E (k + 1) < E j := by rw [heq] at hlt; exact hlt
          exact lt_of_lt_of_le this (hmin i (Nat.lt_succ_iff.mp hi))
      · refine ⟨j, hjk.trans (Nat.le_succ k), ?_, ?_, hfirst⟩
        · simp only [gridLoop, if_neg hlt]
          exact heq
        · intro i hi
          rcases Nat.lt_or_ge i (k + 1) with hik | hik
          · exact hmin i (Nat.lt_succ_iff.mp hik)
          · have hik1 : i = k + 1 := le_antisymm hi hik
            rw [heq] at hlt
            rw [hik1]
            exact le_of_not_lt hlt


/-- Claim C4: for every height the returned twist angle is one of the 101
grid samples i * (min(pi, pi - 2*pi/n))/100, its energy is a minimum over
all 101 samples, and every strictly earlier sample has strictly larger
energy, so ties go to the smallest index (the comparison is strict). -/
theorem c4_grid_search_minimum (m : KreslingModel) (h : ℝ) :
    ∃ j : ℕ, j ≤ 100 ∧ findEquilibriumTwistAngle m h = gridPhi m j ∧
      (∀ i : ℕ, i ≤ 100 →
        computeEnergy m h (findEquilibriumTwistAngle m h) ≤
          computeEnergy m h (gridPhi m i)) ∧
      (∀ i : ℕ, i < j →
        computeEnergy m h (gridPhi m j) < computeEnergy m h (gridPhi m i)) := by
  obtain ⟨j, hj, heq, hmin, hfirst⟩ :=
    gridLoop_spec (fun i => computeEnergy m h (gridPhi m i)) (gridPhi m) 100
  have hres : findEquilibriumTwistAngle m h = gridPhi m j := by
    simp only [findEquilibriumTwistAngle, heq]
  refine ⟨j, hj, hres, ?_, hfirst⟩
  intro i hi
  rw [hres]
  exact hmin i hi

/-- On the instance mA the lambda parameter evaluates to 1/2. -/
theorem lam_mA_eq : lam mA = 1 / 2 := by
  show ((2 - 2 * 3 * Real.cos (Real.pi / 2)) / 2) * Real.sin (Real.pi / 6) =
    1 / 2
  rw [Real.cos_pi_div_two, Real.sin_pi_div_six]
  norm_num

/-- On the instance mB the lambda parameter evaluates to 2. -/
theorem lam_mB_eq : lam mB = 2 := by
  show ((4 - 2 * 3 * Real.cos (Real.pi / 2)) / 1) * Real.sin (Real.pi / 6) = 2
  rw [Real.cos_pi_div_two, Real.sin_pi_div_six]
  norm_num

/-- Claim C1: on a fresh instance (empty cache), when |lambda| <= 1 both
stable states are returned with phi1 = asin(lambda) - pi/n,
phi2 = pi - asin(lambda) - pi/n and the clamped square-root heights, and
when |lambda| > 1 both states are null. -/
theorem c1_find_stable_states (m : KreslingModel)
    (hc : m._stableStates = none) :
    (|lam m| ≤ 1 →
      (findStableStates m).1 =
        (some ⟨Real.sqrt (max 0 (m.c ^ 2 - m.r ^ 2 - m.R ^ 2 +
            2 * m.r * m.R * Real.cos (Real.arcsin (lam m) - Real.pi / m.n))),
          Real.arcsin (lam m) - Real.pi / m.n⟩,
         some ⟨Real.sqrt (max 0 (m.c ^ 2 - m.r ^ 2 - m.R ^ 2 +
            2 * m.r * m.R *
              Real.cos (Real.pi - Real.arcsin (lam m) - Real.pi / m.n))),
          Real.pi - Real.arcsin (lam m) - Real.pi / m.n⟩)) ∧
    (1 < |lam m| → (findStableStates m).1 = (none, none)) := by
  have hfs : (findStableStates m).1 = computeStableStates m := by
    unfold findStableStates
    rw [hc]
  constructor
  · intro hl
    rw [hfs]
    simp only [computeStableStates, if_pos hl]
  · intro hl
    rw [hfs]
    simp only [computeStableStates, if_neg (not_le.mpr hl)]

/-- Witness for C1: on mA (lambda = 1/2) both states are returned with the
closed-form angles and heights, and on mB (lambda = 2) both are null. -/
theorem c1_find_stable_states_witness :
    ((findStableStates mA).1 =
      (some ⟨Real.sqrt (max 0 (mA.c ^ 2 - mA.r ^ 2 - mA.R ^ 2 +
          2 * mA.r * mA.R * Real.cos (Real.arcsin (lam mA) - Real.pi / mA.n))),
        Real.arcsin (lam mA) - Real.pi / mA.n⟩,
       some ⟨Real.sqrt (max 0 (mA.c ^ 2 - mA.r ^ 2 - mA.R ^ 2 +
          2 * mA.r * mA.R *
            Real.cos (Real.pi - Real.arcsin (lam mA) - Real.pi / mA.n))),
        Real.pi - Real.arcsin (lam mA) - Real.pi / mA.n⟩)) ∧
    (findStableStates mB).1 = (none, none) := by
  constructor
  · refine (c1_find_stable_states mA rfl).1 ?_
    rw [lam_mA_eq]
    rw [abs_of_nonneg (by norm_num : (0:ℝ) ≤ 1 / 2)]
    norm_num
  · refine (c1_find_stable_states mB rfl).2 ?_
    rw [lam_mB_eq]
    rw [abs_of_nonneg (by norm_num : (0:ℝ) ≤ 2)]
    norm_num

/-- Claim C9: on a fresh instance findStableStates returns both states or
neither (the two guards are the same condition), and isBistable is true
exactly when |lambda| <= 1. -/
theorem c9_both_or_neither (m : KreslingModel)
    (hc : m._stableStates = none) :
    ((findStableStates m).1.1 = none ↔ (findStableStates m).1.2 = none) ∧
    ((isBistable m = true) ↔ |lam m| ≤ 1) := by
  have hfs : (findStableStates m).1 = computeStableStates m := by
    unfold findStableStates
    rw [hc]
  have hb : isBistable m =
      ((computeStableStates m).1.isSome && (computeStableStates m).2.isSome) := by
    unfold isBistable
    rw [hfs]
  by_cases hl : |lam m| ≤ 1
  · rw [hfs, hb]
    simp [computeStableStates, if_pos hl, hl]
  · rw [hfs, hb]
    simp [computeStableStates, if_neg hl, hl]

/-- Witness for C9 at the concrete instance mA. -/
theorem c9_both_or_neither_witness :
    (((findStableStates mA).1.1 = none ↔ (findStableStates mA).1.2 = none) ∧
      ((isBistable mA = true) ↔ |lam mA| ≤ 1)) :=
  c9_both_or_neither mA rfl

/-- Claim C2: calculatePhase always returns one of the three labels, the
label is "monostable" when either returned state is null, and when both
states are present the label follows the |lambda| > 1 check, the c > cfs
check and the phi interval check, in that order. -/
theorem c2_calculate_phase (m : KreslingModel) :
    (calculatePhase m = "monostable" ∨
      calculatePhase m = "bistable-zero-energy" ∨
      calculatePhase m = "bistable-nonzero-energy") ∧
    (((findStableStates m).1.1 = none ∨ (findStableStates m).1.2 = none) →
      calculatePhase m = "monostable") ∧
    (∀ s1 s2 : FoldState, (findStableStates m).1 = (some s1, some s2) →
      (1 < |lam m| → calculatePhase m = "monostable") ∧
      (|lam m| ≤ 1 → cfs m < m.c →
        calculatePhase m = "bistable-zero-energy") ∧
      (|lam m| ≤ 1 → ¬ cfs m < m.c →
        s1.phi ≤ Real.pi / 2 - Real.pi / m.n →
        Real.pi / 2 - Real.pi / m.n ≤ s2.phi →
        calculatePhase m = "bistable-zero-energy") ∧
      (|lam m| ≤ 1 → ¬ cfs m < m.c →
        ¬ (s1.phi ≤ Real.pi / 2 - Real.pi / m.n ∧
            Real.pi / 2 - Real.pi / m.n ≤ s2.phi) →
        calculatePhase m = "bistable-nonzero-energy")) := by
  cases hpair : (findStableStates m).1 with
  | mk s1o s2o =>
    cases s1o with
    | none =>
        have hcp : calculatePhase m = "monostable" := by
          unfold calculatePhase
          rw [hpair]
        refine ⟨Or.inl hcp, fun _ => hcp, ?_⟩
        intro s1 s2 heq
        exact absurd heq (by simp [hpair])
    | some s1v =>
      cases s2o with
      | none =>
          have hcp : calculatePhase m = "monostable" := by
            unfold calculatePhase
            rw [hpair]
          refine ⟨Or.inl hcp, fun _ => hcp, ?_⟩
          intro s1 s2 heq
          exact absurd heq (by simp [hpair])
      | some s2v =>
          have hcp : calculatePhase m =
              (if 1 < |lam m| then "monostable"
               else if cfs m < m.c then "bistable-zero-energy"
               else if s1v.phi ≤ Real.pi / 2 - Real.pi / m.n ∧
                   Real.pi / 2 - Real.pi / m.n ≤ s2v.phi then
                 "bistable-zero-energy"
               else "bistable-nonzero-energy") := by
            unfold calculatePhase
            rw [hpair]
          refine ⟨?_, ?_, ?_⟩
          · rw [hcp]
            split_ifs <;> simp
          · intro hnone
            exact absurd hnone (by simp)
          · intro s1 s2 heq
            simp only [Prod.mk.injEq, Option.some.injEq] at heq
            obtain ⟨h1, h2⟩ := heq
            subst h1
            subst h2
            refine ⟨?_, ?_, ?_, ?_⟩
            · intro hl
              rw [hcp, if_pos hl]
            · intro hl hcfs
              rw [hcp, if_neg (not_lt.mpr hl), if_pos hcfs]
            · intro hl hcfs hp1 hp2
              rw [hcp, if_neg (not_lt.mpr hl), if_neg hcfs, if_pos ⟨hp1, hp2⟩]
            · intro hl hcfs hnp
              rw [hcp, if_neg (not_lt.mpr hl), if_neg hcfs, if_neg hnp]

/-- Witness for C2 at the concrete instance mB, whose lambda is 2, so both
states are null and the phase is "monostable". -/
theorem c2_calculate_phase_witness : calculatePhase mB = "monostable" := by
  have hl : ¬ |lam mB| ≤ 1 := by
    rw [lam_mB_eq]
    rw [abs_of_nonneg (by norm_num : (0:ℝ) ≤ 2)]
    norm_num
  have hfs : (findStableStates mB).1 = computeStableStates mB := by
    unfold findStableStates
    rfl
  have hnone : (findStableStates mB).1.1 = none := by
    rw [hfs]
    simp only [computeStableStates, if_neg hl]
  exact (c2_calculate_phase mB).2.1 (Or.inl hnone)

/-- Claim C7 counterexample: on the instance mA (constructed with EA = 1),
after updateModelParameter assigns EA = 2, computeEnergy at the fold state
(100, 0) does not return the claimed formula with the stiffnesses re-derived
from the current EA.  The stored km and kv still embody the construction-time
EA = 1, so the claimed value is exactly twice the actual one, and the actual
energy at this state is positive. -/
theorem c7_counterexample_ea_not_reread :
    computeEnergy (updateModelParameter mA ParamName.EA 2) 100 0 ≠
      energyCurrentEA (updateModelParameter mA ParamName.EA 2) 100 0 := by
  have hr : (updateModelParameter mA ParamName.EA 2).r = 2 := by
    show 2 / (2 * Real.sin (Real.pi / 6)) = 2
    rw [Real.sin_pi_div_six]
    norm_num
  have hR : (updateModelParameter mA ParamName.EA 2).R = 2 := by
    show 2 / (2 * Real.sin (Real.pi / 6)) = 2
    rw [Real.sin_pi_div_six]
    norm_num
  have hd0 : 0 ≤ (updateModelParameter mA ParamName.EA 2).d :=
    Real.sqrt_nonneg _
  have hct : (computeCreaseLength (updateModelParameter mA ParamName.EA 2)
      100 0).1 = 100 := by
    show Real.sqrt ((100 : ℝ) ^ 2 +
        (updateModelParameter mA ParamName.EA 2).r ^ 2 +
        (updateModelParameter mA ParamName.EA 2).R ^ 2 -
        2 * (updateModelParameter mA ParamName.EA 2).r *
          (updateModelParameter mA ParamName.EA 2).R * Real.cos 0) = 100
    rw [hr, hR, Real.cos_zero]
    rw [show (100 : ℝ) ^ 2 + 2 ^ 2 + 2 ^ 2 - 2 * 2 * 2 * 1 = 100 ^ 2 by
      norm_num]
    exact Real.sqrt_sq (by norm_num)
  have hkm : (updateModelParameter mA ParamName.EA 2).km = 1 / 3 := rfl
  have hkv : (updateModelParameter mA ParamName.EA 2).kv =
      1 / (updateModelParameter mA ParamName.EA 2).d := rfl
  have hn : (updateModelParameter mA ParamName.EA 2).n = 6 := rfl
  have hc3 : (updateModelParameter mA ParamName.EA 2).c = 3 := rfl
  have hEA : (updateModelParameter mA ParamName.EA 2).EA = 2 := rfl
  have hy : 0 ≤ 1 / (updateModelParameter mA ParamName.EA 2).d *
      ((computeCreaseLength (updateModelParameter mA ParamName.EA 2) 100 0).2 -
        (updateModelParameter mA ParamName.EA 2).d) ^ 2 :=
    mul_nonneg (div_nonneg zero_le_one hd0) (sq_nonneg _)
  have key : computeEnergy (updateModelParameter mA ParamName.EA 2) 100 0 <
      energyCurrentEA (updateModelParameter mA ParamName.EA 2) 100 0 := by
    simp only [computeEnergy, energyCurrentEA]
    rw [hct, hkm, hkv, hn, hc3, hEA]
    generalize hD : (updateModelParameter mA ParamName.EA 2).d = D at hy hd0 ⊢
    generalize hT : (computeCreaseLength (updateModelParameter mA
      ParamName.EA 2) 100 0).2 = T at hy ⊢
    have h2 : (2 : ℝ) / D = 2 * (1 / D) := by ring
    rw [h2]
    nlinarith [hy]
  exact ne_of_lt key

/-- Claim C8 counterexample: a unit constructed with the zero-length side
edge c = 0 is not degenerate at all: the constructor substitutes the default
c = 3, the stiffness km is the ordinary value 1/3, and the whole instance
equals the default-constructed one. -/
theorem c8_counterexample_zero_edge_defaults :
    (KreslingModel.create pZero).c = 3 ∧
    (KreslingModel.create pZero).c ≠ 0 ∧
    (KreslingModel.create pZero).km = 1 / 3 ∧
    KreslingModel.create pZero = KreslingModel.create pNone := by
  refine ⟨?_, ?_, ?_, ?_⟩ <;>
    norm_num [KreslingModel.create, pZero, pNone, jsOrDefault, mkRaw]

/-- Claim C8 amended: construction is never rejected (the constructor is a
total function), but a supplied zero for an edge length is replaced by the
documented default, so it cannot propagate, and a non-falsy degenerate
count such as n = 2 is retained, with the derived quantities still given by
the same total real-valued formulas. -/
theorem c8_amended_no_validation (p : KreslingParams) :
    KreslingModel.create { p with c := some 0 } =
      KreslingModel.create { p with c := none } ∧
    KreslingModel.create { p with a := some 0 } =
      KreslingModel.create { p with a := none } ∧
    KreslingModel.create { p with b := some 0 } =
      KreslingModel.create { p with b := none } ∧
    (KreslingModel.create { p with n := some 2 }).n = 2 ∧
    (KreslingModel.create { p with n := some 2 }).r =
      jsOrDefault p.a 1 / (2 * Real.sin (Real.pi / 2)) := by
  refine ⟨?_, ?_, ?_, ?_, ?_⟩ <;>
    norm_num [KreslingModel.create, jsOrDefault, mkRaw]

/-- Claim C10: a supplied falsy (zero) value for any constructor parameter
is replaced by the documented default n=6, a=1, b=2, c=3, beta=1.5, EA=1. -/
theorem c10_falsy_constructor_defaults (p : KreslingParams) :
    (KreslingModel.create { p with n := some 0 }).n = 6 ∧
    (KreslingModel.create { p with a := some 0 }).a = 1 ∧
    (KreslingModel.create { p with b := some 0 }).b = 2 ∧
    (KreslingModel.create { p with c := some 0 }).c = 3 ∧
    (KreslingModel.create { p with beta := some 0 }).beta = 1.5 ∧
    (KreslingModel.create { p with EA := some 0 }).EA = 1 := by
  refine ⟨?_, ?_, ?_, ?_, ?_, ?_⟩ <;>
    norm_num [KreslingModel.create, jsOrDefault, mkRaw]

/-- Witness for C5 at the default parameters and the fold state (1, 0). -/
theorem c5_crease_energy_formulas_witness :
    computeCreaseLength (KreslingModel.create pNone) 1 0 =
      (Real.sqrt ((1 : ℝ) ^ 2 + (KreslingModel.create pNone).r ^ 2 +
          (KreslingModel.create pNone).R ^ 2 -
          2 * (KreslingModel.create pNone).r * (KreslingModel.create pNone).R *
            Real.cos 0),
       Real.sqrt ((1 : ℝ) ^ 2 + (KreslingModel.create pNone).r ^ 2 +
          (KreslingModel.create pNone).R ^ 2 -
          2 * (KreslingModel.create pNone).r * (KreslingModel.create pNone).R *
            Real.cos (0 + 2 * Real.pi / (KreslingModel.create pNone).n))) ∧
    computeEnergy (KreslingModel.create pNone) 1 0 =
      (KreslingModel.create pNone).n *
          ((KreslingModel.create pNone).EA / (KreslingModel.create pNone).c) *
          ((computeCreaseLength (KreslingModel.create pNone) 1 0).1 -
            (KreslingModel.create pNone).c) ^ 2 / 2 +
        (KreslingModel.create pNone).n *
          ((KreslingModel.create pNone).EA / (KreslingModel.create pNone).d) *
          ((computeCreaseLength (KreslingModel.create pNone) 1 0).2 -
            (KreslingModel.create pNone).d) ^ 2 / 2 :=
  c5_crease_energy_formulas pNone 1 0

/-- Witness for C3 at the concrete instance mA and the new value 1. -/
theorem c3_cache_correctness_witness :
    ((findStableStates (findStableStates mA).2).1 = (findStableStates mA).1 ∧
      (findStableStates (findStableStates mA).2).2 =
        (findStableStates mA).2) ∧
    ((updateModelParameter mA ParamName.a 1)._stableStates = none ∧
      (updateModelParameter mA ParamName.b 1)._stableStates = none ∧
      (updateModelParameter mA ParamName.c 1)._stableStates = none ∧
      (updateModelParameter mA ParamName.beta 1)._stableStates = none ∧
      (updateModelParameter mA ParamName.n 1)._stableStates = none) ∧
    ((findStableStates (updateModelParameter mA ParamName.a 1)).1 =
        computeStableStates (updateModelParameter mA ParamName.a 1) ∧
      (findStableStates (updateModelParameter mA ParamName.b 1)).1 =
        computeStableStates (updateModelParameter mA ParamName.b 1) ∧
      (findStableStates (updateModelParameter mA ParamName.c 1)).1 =
        computeStableStates (updateModelParameter mA ParamName.c 1) ∧
      (findStableStates (updateModelParameter mA ParamName.beta 1)).1 =
        computeStableStates (updateModelParameter mA ParamName.beta 1) ∧
      (findStableStates (updateModelParameter mA ParamName.n 1)).1 =
        computeStableStates (updateModelParameter mA ParamName.n 1)) :=
  c3_cache_correctness mA 1

/-- Witness for C4 at the concrete instance mA and the height 0. -/
theorem c4_grid_search_minimum_witness :
    ∃ j : ℕ, j ≤ 100 ∧ findEquilibriumTwistAngle mA 0 = gridPhi mA j ∧
      (∀ i : ℕ, i ≤ 100 →
        computeEnergy mA 0 (findEquilibriumTwistAngle mA 0) ≤
          computeEnergy mA 0 (gridPhi mA i)) ∧
      (∀ i : ℕ, i < j →
        computeEnergy mA 0 (gridPhi mA j) < computeEnergy mA 0 (gridPhi mA i)) :=
  c4_grid_search_minimum mA 0

/-- Witness for the amended C7 at the concrete instance mA, the new value
EA = 2 and the fold state (1, 0). -/
theorem c7_amended_ea_update_stale_witness :
    computeEnergy (updateModelParameter mA ParamName.EA 2) 1 0 =
      computeEnergy mA 1 0 ∧
    (updateModelParameter mA ParamName.EA 2).km = mA.km ∧
    (updateModelParameter mA ParamName.EA 2).kv = mA.kv ∧
    (updateModelParameter mA ParamName.EA 2).EA = 2 :=
  c7_amended_ea_update_stale mA 2 1 0

/-- Witness for the amended C8 at the all-absent params object. -/
theorem c8_amended_no_validation_witness :
    KreslingModel.create { pNone with c := some 0 } =
      KreslingModel.create { pNone with c := none } ∧
    KreslingModel.create { pNone with a := some 0 } =
      KreslingModel.create { pNone with a := none } ∧
    KreslingModel.create { pNone with b := some 0 } =
      KreslingModel.create { pNone with b := none } ∧
    (KreslingModel.create { pNone with n := some 2 }).n = 2 ∧
    (KreslingModel.create { pNone with n := some 2 }).r =
      jsOrDefault pNone.a 1 / (2 * Real.sin (Real.pi / 2)) :=
  c8_amended_no_validation pNone

/-- Witness for C10 at the all-absent params object. -/
theorem c10_falsy_constructor_defaults_witness :
    (KreslingModel.create { pNone with n := some 0 }).n = 6 ∧
    (KreslingModel.create { pNone with a := some 0 }).a = 1 ∧
    (KreslingModel.create { pNone with b := some 0 }).b = 2 ∧
    (KreslingModel.create { pNone with c := some 0 }).c = 3 ∧
    (KreslingModel.create { pNone with beta := some 0 }).beta = 1.5 ∧
    (KreslingModel.create { pNone with EA := some 0 }).EA = 1 :=
  c10_falsy_constructor_defaults pNone

end

end Kresling
